import Mathlib

/-!
Verification of the wedge-designer repository: a shallow embedding of the
geometry pipeline (blade, grooves, hosel, sole grind, assembly), the grind
classification, the weight calculation and the configuration validation,
with theorems settling the specified properties.

Lengths are in millimetres and angles in degrees, modelled over `ℚ` except
where the source calls trigonometric functions, which are modelled over `ℝ`.
-/

namespace WedgeDesigner

/-- Python `int(q)` on a number: truncation toward zero. -/
def pyTrunc (q : ℚ) : ℤ := if 0 ≤ q then ⌊q⌋ else -⌊-q⌋

/-! ## Grooves (`src/geometry/blade.py`, `WedgeBlade.add_grooves`)

The groove sub-operation reads its parameters from the groove config with
the defaults of `groove_config.get`, computes the usable band on the face,
clamps the requested count, and cuts one V-groove per index `i` in
`range(actual_count)` at height `edge_clearance + i * spacing`; each
individual cut is wrapped in try/except and cannot abort the loop. -/

structure GrooveConfig where
  spacing : ℚ
  width : ℚ
  depth : ℚ
  count : ℤ
  edge_clearance : ℚ
deriving DecidableEq

/-- Defaults used by `add_grooves` via `groove_config.get(key, default)`. -/
def defaultGrooveConfig : GrooveConfig :=
  { spacing := 3.81, width := 0.9, depth := 0.4, count := 12, edge_clearance := 3 }

/-- `groove_start_z = edge_clearance`. -/
def grooveStartZ (g : GrooveConfig) : ℚ := g.edge_clearance

/-- `groove_end_z = face_height - edge_clearance`. -/
def grooveEndZ (face_height : ℚ) (g : GrooveConfig) : ℚ := face_height - g.edge_clearance

/-- `available_height = groove_end_z - groove_start_z`. -/
def availableHeight (face_height : ℚ) (g : GrooveConfig) : ℚ :=
  grooveEndZ face_height g - grooveStartZ g

/-- `actual_count = min(count, int(available_height / spacing) + 1)`;
Python `int()` truncates toward zero. -/
def actualCount (face_height : ℚ) (g : GrooveConfig) : ℤ :=
  min g.count (pyTrunc (availableHeight face_height g / g.spacing) + 1)

/-- Number of groove cuts the loop performs: `range(actual_count)` has
`max actual_count 0` iterations. -/
def groovesPlaced (face_height : ℚ) (g : GrooveConfig) : ℕ :=
  (actualCount face_height g).toNat

/-- Centre heights of the placed grooves: `z_pos = groove_start_z + i * spacing`. -/
def groovePositions (face_height : ℚ) (g : GrooveConfig) : List ℚ :=
  (List.range (groovesPlaced face_height g)).map
    (fun i => grooveStartZ g + (i : ℚ) * g.spacing)

/-! ## Blade body (`src/geometry/blade.py`, `WedgeBlade.generate`) -/

structure BladeConfig where
  blade_length : ℚ
  face_height : ℚ
  topline_thickness : ℚ
  loft : ℚ
  lie : ℚ
deriving DecidableEq

/-- Defaults of `WedgeBlade.__init__` via `config.get`. -/
def defaultBladeConfig : BladeConfig :=
  { blade_length := 74, face_height := 49, topline_thickness := 3.0,
    loft := 56, lie := 64 }

/-- Fixed internal cross-section offset: distance from face to back at the
topline (`topline_offset = 3.0` in `generate`). -/
def topline_offset : ℚ := 3.0

/-- Fixed internal cross-section offset: distance from face to back at the
sole (`sole_offset = 7.0` in `generate`). -/
def sole_offset : ℚ := 7.0

/-- The constructive content of `WedgeBlade.generate`: the closed profile
polygon on the YZ plane, the extrusion length along X, the centering
translation, the loft rotation about the X axis at the origin, and the
attempted topline fillet radius (whose failure is tolerated). -/
structure BladeGeom where
  profile : List (ℚ × ℚ)
  extrudeLength : ℚ
  translation : ℚ × ℚ × ℚ
  loftRotationDeg : ℚ
  filletTopRadius : ℚ
deriving DecidableEq

/-- `WedgeBlade.generate`, step for step. -/
def generateBlade (c : BladeConfig) : BladeGeom :=
  { profile := [(0, 0), (0, c.face_height), (topline_offset, c.face_height),
                (sole_offset, c.face_height * (3 / 10)), (sole_offset, 0)]
    extrudeLength := c.blade_length
    translation := (-c.blade_length / 2, 0, 0)
    loftRotationDeg := -c.loft
    filletTopRadius := 1.0 }

/-! ## Grind classification (`app.py`, lines 112-123) -/

inductive GrindType
  | highRelief
  | wideSole
  | lowBounce
  | standard
deriving DecidableEq

/-- The grind-profile decision chain of `app.py`:
`if heel_relief > 2.5 or toe_relief > 2.5`, `elif sole_width > 23`,
`elif bounce < 6`, `else`. -/
def grindType (heel_relief toe_relief sole_width bounce : ℚ) : GrindType :=
  if 2.5 < heel_relief ∨ 2.5 < toe_relief then .highRelief
  else if 23 < sole_width then .wideSole
  else if bounce < 6 then .lowBounce
  else .standard

/-! ## Hosel (`src/geometry/hosel.py`) -/

structure HoselConfig where
  height : ℚ
  outer_diameter : ℚ
  bore_diameter : ℚ
  bore_depth : ℚ
deriving DecidableEq

/-- Defaults of `WedgeHosel.__init__` via `config.get`. -/
def defaultHoselConfig : HoselConfig :=
  { height := 42, outer_diameter := 14.5, bore_diameter := 9.4, bore_depth := 38 }

/-- `WedgeHosel.validate`, check for check in source order: bore-diameter
tolerance, then bore depth versus height, then wall thickness.  A raised
`ValueError` is modelled as `Except.error` with the start of its message. -/
def hoselValidate (h : HoselConfig) : Except String Bool :=
  if 0.1 < |h.bore_diameter - 9.4| then
    .error "Bore diameter should be 9.4mm for standard shaft"
  else if h.height ≤ h.bore_depth then
    .error "Bore depth must be less than hosel height"
  else if h.outer_diameter < h.bore_diameter + 3 then
    .error "Outer diameter too small - need at least 3mm wall thickness"
  else
    .ok true

/-- A closed interval of z coordinates. -/
structure ZInterval where
  lo : ℚ
  hi : ℚ
deriving DecidableEq

/-- cadquery `Workplane.cylinder(height, radius)` keeps its default
`centered=True`, so the solid spans the workplane offset plus and minus
half the height along the workplane normal. -/
def cqCylinderZ (offset height : ℚ) : ZInterval :=
  { lo := offset - height / 2, hi := offset + height / 2 }

/-- z extent of the hosel body: `Workplane("XY").cylinder(height, od/2)`. -/
def hoselBodyZ (h : HoselConfig) : ZInterval := cqCylinderZ 0 h.height

/-- z extent of the bore cutter:
`Workplane("XY").workplane(offset=height/2).cylinder(bore_depth, bd/2)`. -/
def hoselBoreZ (h : HoselConfig) : ZInterval := cqCylinderZ (h.height / 2) h.bore_depth

/-- z extent of the material the `cut` removes from the body on the bore
axis: the intersection of the body extent with the bore-cutter extent. -/
def boreCutZ (h : HoselConfig) : ZInterval :=
  { lo := max (hoselBodyZ h).lo (hoselBoreZ h).lo,
    hi := min (hoselBodyZ h).hi (hoselBoreZ h).hi }

/-- Length of a z interval. -/
def ZInterval.length (i : ZInterval) : ℚ := i.hi - i.lo

/-- The z extent the specification claims for the bore: starting flush with
the top face of the hosel and extending `bore_depth` downward. -/
def specBoreZ (h : HoselConfig) : ZInterval :=
  { lo := h.height / 2 - h.bore_depth, hi := h.height / 2 }

/-! ## Sole grind (`src/geometry/sole.py`)

The sole pipeline is modelled as a small term language of the cadquery
operations `generate_flat_sole`, `add_leading_edge_radius` and
`add_heel_toe_relief` actually perform.  The fillet and the chamfers run
inside try/except blocks, so the embedding takes one success flag per
kernel call and threads the Python control flow of those blocks exactly. -/

inductive Geom
  | box (length width thickness : ℚ)
  | translate (v : ℚ × ℚ × ℚ) (g : Geom)
  | rotate (axisStart axisEnd : ℚ × ℚ × ℚ) (angleDeg : ℚ) (g : Geom)
  | filletLE (radius : ℚ) (g : Geom)
  | chamferHeel (dist : ℚ) (g : Geom)
  | chamferToe (dist : ℚ) (g : Geom)
deriving DecidableEq

/-- cadquery `Workplane.rotate(axisStartPoint, axisEndPoint, angleDegrees)`
rotates about the line joining its two point arguments; the direction of
that rotation axis is the vector from the start point to the end point. -/
def Geom.rotationAxisDirection : Geom → Option (ℚ × ℚ × ℚ)
  | .rotate p1 p2 _ _ =>
    some (p2.1 - p1.1, p2.2.1 - p1.2.1, p2.2.2 - p1.2.2)
  | _ => none

/-- A vector is parallel to the heel-toe X axis when its other two
components vanish. -/
def parallelToX {R : Type} [Zero R] (v : R × R × R) : Prop :=
  v.2.1 = 0 ∧ v.2.2 = 0

structure SoleConfig where
  width_center : ℚ
  leading_edge_radius : ℚ
  heel_relief_angle : ℚ
  toe_relief_angle : ℚ
  bounce : ℚ
deriving DecidableEq

/-- Defaults of `WedgeSole.__init__` via `sole_config.get` and
`config.get('bounce', 8)`. -/
def defaultSoleConfig : SoleConfig :=
  { width_center := 21, leading_edge_radius := 0.6,
    heel_relief_angle := 1.5, toe_relief_angle := 2.0, bounce := 8 }

/-- `sole_thickness = 3` inside `generate_flat_sole`. -/
def sole_thickness : ℚ := 3

/-- `WedgeSole.generate_flat_sole`: a centered box of
`blade_length × width_center × sole_thickness`, translated down by half the
thickness, then `sole.rotate((0, -width_center/2, 0), (1, 0, 0), bounce)`,
a rotation by `+bounce` degrees about the line joining the point
`(0, -width_center/2, 0)` and the point `(1, 0, 0)`. -/
def generate_flat_sole (s : SoleConfig) (blade_length : ℚ) : Geom :=
  .rotate (0, -s.width_center / 2, 0) (1, 0, 0) s.bounce
    (.translate (0, 0, -sole_thickness / 2)
      (.box blade_length s.width_center sole_thickness))

/-- `WedgeSole.add_leading_edge_radius`: one fillet on the `"<Y"` edges
inside try/except; on failure the sole is returned unchanged. -/
def add_leading_edge_radius (filletOk : Bool) (s : SoleConfig) (g : Geom) : Geom :=
  if filletOk then .filletLE s.leading_edge_radius g else g

/-- `WedgeSole.add_heel_toe_relief`: a single try block first chamfers the
heel edges by `heel_relief_angle * 0.5`, then the toe edges by
`toe_relief_angle * 0.5`.  If the heel chamfer raises, the except clause
returns the unchanged sole and the toe chamfer is never attempted; if the
toe chamfer raises, the heel-chamfered sole is returned.  The second
component records whether the toe chamfer was attempted. -/
def add_heel_toe_relief (heelOk toeOk : Bool) (s : SoleConfig) (g : Geom) :
    Geom × Bool :=
  if heelOk then
    if toeOk then
      (.chamferToe (s.toe_relief_angle * 0.5)
        (.chamferHeel (s.heel_relief_angle * 0.5) g), true)
    else
      (.chamferHeel (s.heel_relief_angle * 0.5) g, true)
  else
    (g, false)

/-- `WedgeSole.generate_with_grind`: flat sole, then leading-edge radius,
then heel/toe relief, in that order. -/
def generate_with_grind (filletOk heelOk toeOk : Bool) (s : SoleConfig)
    (blade_length : ℚ) : Geom :=
  (add_heel_toe_relief heelOk toeOk s
    (add_leading_edge_radius filletOk s (generate_flat_sole s blade_length))).1

/-- z extent of a geometry term, defined on the axis-aligned prefix of the
pipeline (box and translation); rotations and local features return none. -/
def zExtent : Geom → Option (ℚ × ℚ)
  | .box _ _ t => some (-t / 2, t / 2)
  | .translate v g => (zExtent g).map (fun p => (p.1 + v.2.2, p.2 + v.2.2))
  | _ => none

/-! ## Weight (`src/utils.py`) -/

/-- The closed material-density table `MATERIAL_DENSITIES` (g per cm3). -/
def MATERIAL_DENSITIES : List (String × ℚ) :=
  [("8620_steel", 7.85), ("1020_steel", 7.87), ("304_stainless", 8.00),
   ("431_stainless", 7.75), ("carbon_steel", 7.85)]

/-- `MATERIAL_DENSITIES.get(material, 7.85)`. -/
def densityOf (material : String) : ℚ :=
  (MATERIAL_DENSITIES.lookup material).getD 7.85

/-- `calculate_weight`: the solid is abstracted by its volume in cubic
millimetres; weight in grams is volume over 1000 times the looked-up
density. -/
def calculate_weight (volume_mm3 : ℚ) (material : String) : ℚ :=
  volume_mm3 / 1000 * densityOf material

/-! ## Configuration validation (`src/config_loader.py`) -/

/-- A loaded YAML document: numeric and string scalars and nested maps. -/
inductive Yaml
  | num (q : ℚ)
  | str (s : String)
  | dict (entries : List (String × Yaml))

/-- `WedgeConfig.get` on an already split dotted path: walk the nested
dictionaries, returning none (Python `None` default) when a key is absent
or an intermediate value is not a dictionary. -/
def Yaml.get : Yaml → List String → Option Yaml
  | v, [] => some v
  | .dict es, k :: ks =>
    match es.lookup k with
    | some v => v.get ks
    | none => none
  | _, _ :: _ => none

/-- Numeric read of a configuration value. -/
def Yaml.getNum (c : Yaml) (path : List String) : Option ℚ :=
  match c.get path with
  | some (.num q) => some q
  | _ => none

/-- `WedgeConfig._validate`: first the presence of the three required
fields, then the range checks the code performs, which cover loft and
bounce only.  A required value that is present but not a number makes the
Python comparison raise, modelled as a type error. -/
def validateConfig (c : Yaml) : Except String Unit :=
  if (c.get ["wedge_specs", "loft"]).isNone then
    .error "Required field missing: wedge_specs.loft"
  else if (c.get ["wedge_specs", "lie"]).isNone then
    .error "Required field missing: wedge_specs.lie"
  else if (c.get ["wedge_specs", "bounce"]).isNone then
    .error "Required field missing: wedge_specs.bounce"
  else
    match c.getNum ["wedge_specs", "loft"], c.getNum ["wedge_specs", "bounce"] with
    | some loft, some bounce =>
      if ¬(45 ≤ loft ∧ loft ≤ 64) then
        .error "Loft must be between 45-64 degrees"
      else if ¬(0 ≤ bounce ∧ bounce ≤ 16) then
        .error "Bounce must be between 0-16 degrees"
      else
        .ok ()
    | _, _ => .error "TypeError: comparison with non-numeric value"

/-! ## Assembly (`src/wedge_generator.py`, `generate_wedge`, lines 76-96)

The hosel placement is a translation followed by a rotation; the angular
offsets go through `math.sin`/`math.cos` of `math.radians(loft)`, so the
placement is parametrised over the carrier field and its trig functions and
instantiated at `ℝ` with `Real.sin`, `Real.cos` and `Real.pi`. -/

structure Placement (R : Type) where
  translation : R × R × R
  rotAxisStart : R × R × R
  rotAxisEnd : R × R × R
  rotAngleDeg : R

/-- cadquery `rotate` turns about the line joining its two point
arguments; this is the direction vector of that line, from the axis start
point to the axis end point. -/
def Placement.rotAxisDirection {R : Type} [Ring R] (p : Placement R) : R × R × R :=
  (p.rotAxisEnd.1 - p.rotAxisStart.1,
   p.rotAxisEnd.2.1 - p.rotAxisStart.2.1,
   p.rotAxisEnd.2.2 - p.rotAxisStart.2.2)

/-- The hosel placement computed by `generate_wedge`: heel offset
`-blade_length/2 + 8`, translation by the loft-rotated topline offsets
`(face_height * sin(loft_rad), face_height * cos(loft_rad))`, then
`rotate((heel_x, top_offset_y, top_offset_z), (1, 0, 0), -(90 - lie))`, a
rotation by `-(90 - lie)` degrees about the line joining the translated
base point and the point `(1, 0, 0)`. -/
def hoselPlacement (R : Type) [Field R] (sin cos : R → R) (pi : R)
    (loft lie face_height blade_length : R) : Placement R :=
  let heel_x := -blade_length / 2 + 8
  let loft_rad := loft * pi / 180
  let top_offset_y := face_height * sin loft_rad
  let top_offset_z := face_height * cos loft_rad
  { translation := (heel_x, top_offset_y, top_offset_z)
    rotAxisStart := (heel_x, top_offset_y, top_offset_z)
    rotAxisEnd := (1, 0, 0)
    rotAngleDeg := -(90 - lie) }

/-- A configuration whose `wedge_specs.lie` value lies outside the
documented range 60-66. -/
def lieOutOfRangeConfig : Yaml :=
  .dict [("wedge_specs",
    .dict [("loft", .num 56), ("lie", .num 100), ("bounce", .num 8)])]

/-- A configuration holding nothing but the three required fields. -/
def minimalConfig : Yaml :=
  .dict [("wedge_specs",
    .dict [("loft", .num 56), ("lie", .num 64), ("bounce", .num 8)])]

/-- Reads on the path to a numeric value succeed on the underlying `get`. -/
theorem Yaml.get_of_getNum {c : Yaml} {p : List String} {q : ℚ}
    (h : c.getNum p = some q) : c.get p = some (.num q) := by
  unfold Yaml.getNum at h
  cases hg : c.get p with
  | none => rw [hg] at h; exact absurd h (by simp)
  | some v =>
    rw [hg] at h
    cases v with
    | num r => cases h; rfl
    | str s => exact absurd h (by simp)
    | dict es => exact absurd h (by simp)

/-! ## Theorems -/

/-- C1 (counterexample): the unconditional count formula
`min(N, floor((h - 2c)/S) + 1)` does not describe `add_grooves` when the
usable band is negative.  With `face_height = 5` and the default groove
config (`edge_clearance = 3`, `spacing = 3.81`, `count = 12`) the band is
`-1`; Python `int()` truncates `-1/3.81` to `0`, so the code places one
groove, while the floor formula yields `min(12, 0) = 0`. -/
theorem groove_count_floor_formula_cex :
    (groovesPlaced 5 defaultGrooveConfig : ℤ) = 1
    ∧ min defaultGrooveConfig.count
        (⌊((5 : ℚ) - 2 * defaultGrooveConfig.edge_clearance) /
          defaultGrooveConfig.spacing⌋ + 1) = 0 := by
  constructor
  · simp only [groovesPlaced, actualCount, availableHeight, grooveEndZ, grooveStartZ,
      defaultGrooveConfig, pyTrunc]
    norm_num [Int.floor_eq_iff]
  · simp only [defaultGrooveConfig]
    norm_num [Int.floor_eq_iff]

/-- C1 (amended): whenever the requested count is nonnegative, the spacing
is positive and the face height leaves a nonnegative band
(`2 * edge_clearance ≤ face_height`), `add_grooves` places exactly
`min(N, floor((face_height - 2 * edge_clearance) / spacing) + 1)` grooves,
never more than requested; with `face_height = 49` and the default config
(`edge_clearance = 3`, `spacing = 3.81`, `count = 12`) it places exactly
12 grooves. -/
theorem groove_count_clamped (fh : ℚ) (g : GrooveConfig)
    (hS : 0 < g.spacing) (hN : 0 ≤ g.count) (hB : 2 * g.edge_clearance ≤ fh) :
    (groovesPlaced fh g : ℤ) =
        min g.count (⌊(fh - 2 * g.edge_clearance) / g.spacing⌋ + 1)
    ∧ (groovesPlaced fh g : ℤ) ≤ g.count
    ∧ groovesPlaced 49 defaultGrooveConfig = 12 := by
  have havail : availableHeight fh g = fh - 2 * g.edge_clearance := by
    simp only [availableHeight, grooveEndZ, grooveStartZ]; ring
  have hq : 0 ≤ (fh - 2 * g.edge_clearance) / g.spacing :=
    div_nonneg (by linarith) hS.le
  have htr : pyTrunc (availableHeight fh g / g.spacing) =
      ⌊(fh - 2 * g.edge_clearance) / g.spacing⌋ := by
    rw [havail, pyTrunc, if_pos hq]
  have hfl : 0 ≤ ⌊(fh - 2 * g.edge_clearance) / g.spacing⌋ := Int.floor_nonneg.mpr hq
  have hmin : 0 ≤ actualCount fh g := by
    rw [actualCount, htr]
    exact le_min hN (by omega)
  have hmain : (groovesPlaced fh g : ℤ) =
      min g.count (⌊(fh - 2 * g.edge_clearance) / g.spacing⌋ + 1) := by
    rw [groovesPlaced, Int.toNat_of_nonneg hmin, actualCount, htr]
  refine ⟨hmain, ?_, ?_⟩
  · rw [hmain]; exact min_le_left _ _
  · simp only [groovesPlaced, actualCount, availableHeight, grooveEndZ, grooveStartZ,
      defaultGrooveConfig, pyTrunc]
    norm_num [Int.floor_eq_iff]
    rfl

/-- C1 witness. -/
theorem groove_count_clamped_witness :
    (groovesPlaced 49 defaultGrooveConfig : ℤ) =
        min defaultGrooveConfig.count
          (⌊((49 : ℚ) - 2 * defaultGrooveConfig.edge_clearance) /
            defaultGrooveConfig.spacing⌋ + 1)
    ∧ groovesPlaced 49 defaultGrooveConfig = 12 := by
  have h := groove_count_clamped 49 defaultGrooveConfig
    (by norm_num [defaultGrooveConfig]) (by norm_num [defaultGrooveConfig])
    (by norm_num [defaultGrooveConfig])
  exact ⟨h.1, h.2.2⟩

/-- C2: the grind classification is a total, deterministic,
priority-ordered function: it returns High Relief exactly when a relief
angle exceeds 2.5, otherwise Wide Sole exactly when the sole width exceeds
23, otherwise Low Bounce exactly when the bounce is below 6, and Standard
in the remaining case; relief dominates the other rules, as at
`(3.0, 2.0, 18, 10)`. -/
theorem grind_classification_total_priority (h t s b : ℚ) :
    (grindType h t s b = .highRelief ↔ 2.5 < h ∨ 2.5 < t)
    ∧ (grindType h t s b = .wideSole ↔ (h ≤ 2.5 ∧ t ≤ 2.5) ∧ 23 < s)
    ∧ (grindType h t s b = .lowBounce ↔ (h ≤ 2.5 ∧ t ≤ 2.5) ∧ s ≤ 23 ∧ b < 6)
    ∧ (grindType h t s b = .standard ↔ (h ≤ 2.5 ∧ t ≤ 2.5) ∧ s ≤ 23 ∧ 6 ≤ b)
    ∧ grindType 3 2 18 10 = .highRelief := by
  have hchar : ∀ x y z w : ℚ, ∀ r : GrindType, grindType x y z w = r ↔
      (if 2.5 < x ∨ 2.5 < y then GrindType.highRelief
       else if 23 < z then GrindType.wideSole
       else if w < 6 then GrindType.lowBounce
       else GrindType.standard) = r := by
    intro x y z w r; rfl
  refine ⟨?_, ?_, ?_, ?_, ?_⟩ <;> rw [hchar]
  case refine_5 => norm_num
  all_goals
    split_ifs with h1 h2 h3 <;> simp <;> push_neg at * <;>
      first
        | tauto
        | (intros; exfalso; rcases h1 with h1 | h1 <;> linarith)
        | (intros; exfalso; linarith)

/-- C3: `WedgeHosel.generate` does not produce the bore its own comments
and the specification describe.  cadquery cylinders are centered on their
workplane, so the bore cutter is centered at the top face: at the default
configuration (`height = 42`, `bore_depth = 38`) the material removed
spans z in `[2, 21]`, a depth of 19 rather than `bore_depth = 38`, the
claimed flush interval would be `[-17, 21]`, and the cutter tops out at
`z = 40`, protruding above the top face at `z = 21`. -/
theorem hosel_bore_centered_not_flush :
    boreCutZ defaultHoselConfig = { lo := 2, hi := 21 }
    ∧ (boreCutZ defaultHoselConfig).length = 19
    ∧ specBoreZ defaultHoselConfig = { lo := -17, hi := 21 }
    ∧ boreCutZ defaultHoselConfig ≠ specBoreZ defaultHoselConfig
    ∧ (hoselBodyZ defaultHoselConfig).hi < (hoselBoreZ defaultHoselConfig).hi := by
  norm_num [boreCutZ, hoselBodyZ, hoselBoreZ, cqCylinderZ, specBoreZ,
    ZInterval.length, defaultHoselConfig, ZInterval.mk.injEq]

/-- C4: `WedgeHosel.validate` succeeds if and only if none of the three
failure conditions holds: bore depth at least the height, wall thickness
below 3, or bore diameter more than 0.1 from 9.4; a bore diameter of 9.4
passes and 9.6 fails.  The function is pure. -/
theorem hosel_validate_iff (h : HoselConfig) :
    (hoselValidate h = .ok true ↔
      ¬(h.height ≤ h.bore_depth ∨ h.outer_diameter < h.bore_diameter + 3 ∨
        0.1 < |h.bore_diameter - 9.4|))
    ∧ hoselValidate { defaultHoselConfig with bore_diameter := 9.4 } = .ok true
    ∧ (hoselValidate { defaultHoselConfig with bore_diameter := 9.6 }).isOk = false := by
  refine ⟨?_, ?_, ?_⟩
  · rw [hoselValidate]
    split_ifs with h1 h2 h3 <;> push_neg <;> simp_all
  · simp only [hoselValidate, defaultHoselConfig]
    norm_num
  · simp only [hoselValidate, defaultHoselConfig]
    norm_num [abs_of_pos]; rfl

/-- C6 (counterexample): the bounce rotation of `generate_flat_sole` is
not about the heel-toe X axis pivoting at the leading edge: cadquery
rotates about the line joining the two point arguments
`(0, -width_center/2, 0)` and `(1, 0, 0)`, whose direction at the default
sole width 21 is `(1, 21/2, 0)`, not parallel to the X axis. -/
theorem sole_bounce_axis_not_heel_toe_cex :
    (generate_flat_sole defaultSoleConfig 74).rotationAxisDirection =
      some (1, 21 / 2, 0)
    ∧ ¬ parallelToX ((1 : ℚ), 21 / 2, 0) := by
  constructor
  · simp only [generate_flat_sole, Geom.rotationAxisDirection, defaultSoleConfig]
    norm_num
  · intro hpar
    have h := hpar.1
    norm_num at h

/-- C6 (amended): `generate_flat_sole` is exactly a
`blade_length × width_center × 3` slab whose top face before the tilt sits
at z = 0 (z extent `[-3, 0]`), rotated by `+bounce` degrees about the line
joining the leading-edge point `(0, -width_center/2, 0)` and the point
`(1, 0, 0)` — direction `(1, width_center/2, 0)`, not the heel-toe axis —
and `generate_with_grind` applies, in order, this tilted slab, then the
leading-edge fillet, then the heel and toe relief chamfers. -/
theorem sole_grind_pipeline (s : SoleConfig) (bl : ℚ) :
    generate_flat_sole s bl =
      .rotate (0, -s.width_center / 2, 0) (1, 0, 0) s.bounce
        (.translate (0, 0, -sole_thickness / 2) (.box bl s.width_center 3))
    ∧ (generate_flat_sole s bl).rotationAxisDirection =
        some (1, s.width_center / 2, 0)
    ∧ zExtent (.translate (0, 0, -sole_thickness / 2) (.box bl s.width_center 3))
        = some (-3, 0)
    ∧ generate_with_grind true true true s bl =
        .chamferToe (s.toe_relief_angle * 0.5)
          (.chamferHeel (s.heel_relief_angle * 0.5)
            (.filletLE s.leading_edge_radius (generate_flat_sole s bl))) := by
  refine ⟨rfl, ?_, ?_, rfl⟩
  · simp only [generate_flat_sole, Geom.rotationAxisDirection]
    norm_num
    ring
  · simp only [zExtent, Option.map, sole_thickness]
    norm_num

/-- C7 (counterexample): the two relief chamfers are not failure-isolated
from each other: both sit in one try block, so when the heel chamfer fails
the toe chamfer is never attempted and the sole is returned unchanged,
not toe-chamfered. -/
theorem heel_failure_skips_toe_cex :
    (add_heel_toe_relief false true defaultSoleConfig
      (generate_flat_sole defaultSoleConfig 74)).2 = false
    ∧ (add_heel_toe_relief false true defaultSoleConfig
        (generate_flat_sole defaultSoleConfig 74)).1 =
        generate_flat_sole defaultSoleConfig 74 :=
  ⟨rfl, rfl⟩

/-- C7 (amended): `add_heel_toe_relief` chamfers the heel by
`heel_relief_angle * 0.5` and the toe by `toe_relief_angle * 0.5` and never
raises, but failure is tolerated by one shared try block: if the heel
chamfer fails the whole relief is skipped (the toe chamfer is not
attempted) and the original sole is returned; if only the toe chamfer
fails the heel-chamfered sole is returned. -/
theorem heel_toe_relief_cases (s : SoleConfig) (g : Geom) (tOk : Bool) :
    add_heel_toe_relief true true s g =
      (.chamferToe (s.toe_relief_angle * 0.5)
        (.chamferHeel (s.heel_relief_angle * 0.5) g), true)
    ∧ add_heel_toe_relief true false s g =
        (.chamferHeel (s.heel_relief_angle * 0.5) g, true)
    ∧ add_heel_toe_relief false tOk s g = (g, false) :=
  ⟨rfl, rfl, rfl⟩

/-- C8: `calculate_weight` is volume over 1000 times the density looked up
in the closed material table, falling back to the generic steel density
7.85 for any name not in the table, and never failing;
`8620_steel` maps to 7.85. -/
theorem calculate_weight_density_lookup (v : ℚ) (m : String) :
    (∀ d, MATERIAL_DENSITIES.lookup m = some d →
      calculate_weight v m = v / 1000 * d)
    ∧ (MATERIAL_DENSITIES.lookup m = none →
        calculate_weight v m = v / 1000 * 7.85)
    ∧ densityOf "8620_steel" = 7.85 := by
  refine ⟨?_, ?_, rfl⟩
  · intro d hd
    rw [calculate_weight, densityOf, hd, Option.getD_some]
  · intro hd
    rw [calculate_weight, densityOf, hd, Option.getD_none]

/-- C8 witness. -/
theorem calculate_weight_density_lookup_witness :
    calculate_weight 1000 "8620_steel" = 7.85
    ∧ calculate_weight 500 "titanium" = 500 / 1000 * 7.85 := by
  constructor
  · have h := (calculate_weight_density_lookup 1000 "8620_steel").1 7.85 rfl
    rw [h]; norm_num
  · exact (calculate_weight_density_lookup 500 "titanium").2.1 rfl

/-- C9 (counterexample): configuration loading does not range-check
`wedge_specs.lie`: a configuration with `lie = 100`, outside the
documented range 60-66, validates successfully. -/
theorem config_lie_range_unchecked_cex :
    validateConfig lieOutOfRangeConfig = .ok ()
    ∧ lieOutOfRangeConfig.getNum ["wedge_specs", "lie"] = some 100
    ∧ ¬(60 ≤ (100 : ℚ) ∧ (100 : ℚ) ≤ 66) :=
  ⟨rfl, rfl, by norm_num⟩

/-- C9 (amended): configuration loading fails with a descriptive error
whenever any of `wedge_specs.loft`, `wedge_specs.lie`, `wedge_specs.bounce`
is missing; it range-checks loft (45-64) and bounce (0-16) at load time
but not lie, whose presence alone suffices; all other keys are optional,
so the minimal configuration with only the three required keys loads. -/
theorem config_validate_iff (c : Yaml) :
    (validateConfig c = .ok () ↔
      (∃ loft, c.getNum ["wedge_specs", "loft"] = some loft ∧
        45 ≤ loft ∧ loft ≤ 64)
      ∧ (c.get ["wedge_specs", "lie"]).isSome = true
      ∧ (∃ bounce, c.getNum ["wedge_specs", "bounce"] = some bounce ∧
          0 ≤ bounce ∧ bounce ≤ 16))
    ∧ validateConfig minimalConfig = .ok () := by
  refine ⟨⟨?_, ?_⟩, rfl⟩
  · intro hok
    rw [validateConfig] at hok
    by_cases h1 : (c.get ["wedge_specs", "loft"]).isNone = true
    · rw [if_pos h1] at hok; exact absurd hok (by simp)
    rw [if_neg h1] at hok
    by_cases h2 : (c.get ["wedge_specs", "lie"]).isNone = true
    · rw [if_pos h2] at hok; exact absurd hok (by simp)
    rw [if_neg h2] at hok
    by_cases h3 : (c.get ["wedge_specs", "bounce"]).isNone = true
    · rw [if_pos h3] at hok; exact absurd hok (by simp)
    rw [if_neg h3] at hok
    rcases hl : c.getNum ["wedge_specs", "loft"] with _ | loft
    · rw [hl] at hok; exact absurd hok (by simp)
    rcases hb : c.getNum ["wedge_specs", "bounce"] with _ | bounce
    · rw [hl, hb] at hok; exact absurd hok (by simp)
    rw [hl, hb] at hok
    replace hok :
        (if ¬(45 ≤ loft ∧ loft ≤ 64) then
          (Except.error "Loft must be between 45-64 degrees" : Except String Unit)
        else if ¬(0 ≤ bounce ∧ bounce ≤ 16) then
          Except.error "Bounce must be between 0-16 degrees"
        else Except.ok ()) = Except.ok () := hok
    by_cases h4 : ¬(45 ≤ loft ∧ loft ≤ 64)
    · rw [if_pos h4] at hok; exact absurd hok (by simp)
    rw [if_neg h4] at hok
    by_cases h5 : ¬(0 ≤ bounce ∧ bounce ≤ 16)
    · rw [if_pos h5] at hok; exact absurd hok (by simp)
    rw [not_not] at h4 h5
    refine ⟨⟨loft, rfl, h4.1, h4.2⟩, ?_, bounce, rfl, h5.1, h5.2⟩
    rcases ho : c.get ["wedge_specs", "lie"] with _ | v
    · rw [ho] at h2; exact absurd rfl h2
    · rfl
  · rintro ⟨⟨loft, hl, hl1, hl2⟩, hlie, bounce, hb, hb1, hb2⟩
    obtain ⟨v, hv⟩ := Option.isSome_iff_exists.mp hlie
    rw [validateConfig, Yaml.get_of_getNum hl, Yaml.get_of_getNum hb, hv, hl, hb]
    simp only [Option.isNone_some, Bool.false_eq_true, if_false]
    rw [if_neg (not_not_intro ⟨hl1, hl2⟩), if_neg (not_not_intro ⟨hb1, hb2⟩)]

/-- Rational bounds on the radian measure of 4 degrees. -/
theorem pi_div45_bounds : (0.069813 : ℝ) < Real.pi / 45 ∧ Real.pi / 45 < 0.0698132 := by
  have h1 := Real.pi_gt_d6
  have h2 := Real.pi_lt_d6
  norm_num at h1 h2 ⊢
  constructor <;> linarith

/-- Power bounds for the radian measure of 4 degrees. -/
theorem pi_div45_pow_bounds :
    (Real.pi / 45) ^ 2 < 0.0698132 ^ 2
    ∧ (Real.pi / 45) ^ 3 < 0.0698132 ^ 3
    ∧ (0.069813 : ℝ) ^ 3 < (Real.pi / 45) ^ 3
    ∧ (Real.pi / 45) ^ 4 < 0.0698132 ^ 4 := by
  obtain ⟨hl, hu⟩ := pi_div45_bounds
  have hx0 : (0 : ℝ) < Real.pi / 45 := by linarith
  have h2 : (Real.pi / 45) ^ 2 < 0.0698132 ^ 2 := by nlinarith
  have h3 : (Real.pi / 45) ^ 3 < 0.0698132 ^ 3 := by nlinarith
  have h3l : (0.069813 : ℝ) ^ 3 < (Real.pi / 45) ^ 3 := by nlinarith
  have h4 : (Real.pi / 45) ^ 4 < 0.0698132 ^ 4 := by nlinarith
  exact ⟨h2, h3, h3l, h4⟩

/-- Taylor bounds on the sine of 4 degrees. -/
theorem sin_pi_div45_bounds :
    (0.06975 : ℝ) < Real.sin (Real.pi / 45) ∧ Real.sin (Real.pi / 45) < 0.06976 := by
  obtain ⟨hl, hu⟩ := pi_div45_bounds
  obtain ⟨h2, h3, h3l, h4⟩ := pi_div45_pow_bounds
  have hx0 : (0 : ℝ) < Real.pi / 45 := by linarith
  have habs : |Real.pi / 45| ≤ 1 := by rw [abs_of_pos hx0]; linarith
  have hb := Real.sin_bound habs
  rw [abs_of_pos hx0, abs_le] at hb
  constructor
  · nlinarith [hb.1]
  · nlinarith [hb.2]

/-- Taylor bounds on the cosine of 4 degrees. -/
theorem cos_pi_div45_bounds :
    (0.99756 : ℝ) < Real.cos (Real.pi / 45) ∧ Real.cos (Real.pi / 45) < 0.99757 := by
  obtain ⟨hl, hu⟩ := pi_div45_bounds
  obtain ⟨h2, h3, h3l, h4⟩ := pi_div45_pow_bounds
  have hx0 : (0 : ℝ) < Real.pi / 45 := by linarith
  have habs : |Real.pi / 45| ≤ 1 := by rw [abs_of_pos hx0]; linarith
  have hb := Real.cos_bound habs
  rw [abs_of_pos hx0, abs_le] at hb
  have h2l : (0.069813 : ℝ) ^ 2 < (Real.pi / 45) ^ 2 := by nlinarith
  constructor
  · nlinarith [hb.1]
  · nlinarith [hb.2]

/-- Rational bounds on the square root of three. -/
theorem sqrt3_bounds : (1.732050 : ℝ) < Real.sqrt 3 ∧ Real.sqrt 3 < 1.732051 :=
  ⟨(Real.lt_sqrt (by norm_num)).mpr (by norm_num),
   (Real.sqrt_lt' (by norm_num)).mpr (by norm_num)⟩

/-- Numeric bounds on the sine of 56 degrees, via the difference formula
at 60 degrees minus 4 degrees. -/
theorem sin56_bounds :
    (0.82903 : ℝ) < Real.sin (56 * Real.pi / 180)
    ∧ Real.sin (56 * Real.pi / 180) < 0.82905 := by
  have hangle : (56 : ℝ) * Real.pi / 180 = Real.pi / 3 - Real.pi / 45 := by ring
  have hsin : Real.sin (56 * Real.pi / 180) =
      Real.sqrt 3 / 2 * Real.cos (Real.pi / 45)
        - 1 / 2 * Real.sin (Real.pi / 45) := by
    rw [hangle, Real.sin_sub, Real.sin_pi_div_three, Real.cos_pi_div_three]
  obtain ⟨hsl, hsu⟩ := sin_pi_div45_bounds
  obtain ⟨hcl, hcu⟩ := cos_pi_div45_bounds
  obtain ⟨h3l, h3u⟩ := sqrt3_bounds
  rw [hsin]
  constructor
  · nlinarith [mul_pos (sub_pos.mpr h3l) (sub_pos.mpr hcl)]
  · nlinarith [mul_pos (sub_pos.mpr h3u) (sub_pos.mpr hcu),
      mul_pos (sub_pos.mpr h3l) (sub_pos.mpr hcl)]

/-- Numeric bounds on the cosine of 56 degrees, via the difference formula
at 60 degrees minus 4 degrees. -/
theorem cos56_bounds :
    (0.55918 : ℝ) < Real.cos (56 * Real.pi / 180)
    ∧ Real.cos (56 * Real.pi / 180) < 0.55920 := by
  have hangle : (56 : ℝ) * Real.pi / 180 = Real.pi / 3 - Real.pi / 45 := by ring
  have hcos : Real.cos (56 * Real.pi / 180) =
      1 / 2 * Real.cos (Real.pi / 45)
        + Real.sqrt 3 / 2 * Real.sin (Real.pi / 45) := by
    rw [hangle, Real.cos_sub, Real.sin_pi_div_three, Real.cos_pi_div_three]
  obtain ⟨hsl, hsu⟩ := sin_pi_div45_bounds
  obtain ⟨hcl, hcu⟩ := cos_pi_div45_bounds
  obtain ⟨h3l, h3u⟩ := sqrt3_bounds
  rw [hcos]
  constructor
  · nlinarith [mul_pos (sub_pos.mpr h3l) (sub_pos.mpr hsl)]
  · nlinarith [mul_pos (sub_pos.mpr h3u) (sub_pos.mpr hsu),
      mul_pos (sub_pos.mpr h3l) (sub_pos.mpr hsl)]

/-- C5 (counterexample): the hosel is not rotated about the heel-toe axis
through the translated base point: cadquery rotates about the line joining
`(heel_x, top_offset_y, top_offset_z)` and the point `(1, 0, 0)`, and at
`loft = 56`, `lie = 64`, `face_height = 49`, `blade_length = 74` the
direction of that line has middle component `-49 * sin(56°) < -40`, so it
is not parallel to the heel-toe axis. -/
theorem hosel_rotation_axis_not_heel_toe_cex :
    (hoselPlacement ℝ Real.sin Real.cos Real.pi 56 64 49 74).rotAxisDirection.2.1
      < -40
    ∧ ¬ parallelToX
        ((hoselPlacement ℝ Real.sin Real.cos Real.pi 56 64 49 74).rotAxisDirection) := by
  have hs := sin56_bounds
  have hval : (hoselPlacement ℝ Real.sin Real.cos Real.pi 56 64 49 74).rotAxisDirection.2.1
      = 0 - 49 * Real.sin (56 * Real.pi / 180) := rfl
  constructor
  · rw [hval]
    nlinarith [hs.1]
  · intro hpar
    have h := hpar.1
    rw [hval] at h
    nlinarith [hs.1]

/-- C5 (amended): the assembly stage puts the hosel at heel offset
`-blade_length/2 + 8`, translates it by
`(face_height * sin(loft), face_height * cos(loft))` in the (back, up)
directions, and then rotates it by `-(90 - lie)` degrees about the line
joining that translated base point and the point `(1, 0, 0)` (cadquery
rotate's axis is the line joining its two point arguments, so this is not
the heel-toe axis through the base point); at `loft = 56` and
`face_height = 49` the (back, up) offset is within 0.05 of
`(40.6, 27.4)`. -/
theorem hosel_placement_eq :
    (∀ loft lie face_height blade_length : ℝ,
      hoselPlacement ℝ Real.sin Real.cos Real.pi loft lie face_height blade_length =
        { translation := (-blade_length / 2 + 8,
            face_height * Real.sin (loft * Real.pi / 180),
            face_height * Real.cos (loft * Real.pi / 180)),
          rotAxisStart := (-blade_length / 2 + 8,
            face_height * Real.sin (loft * Real.pi / 180),
            face_height * Real.cos (loft * Real.pi / 180)),
          rotAxisEnd := (1, 0, 0),
          rotAngleDeg := -(90 - lie) })
    ∧ (∀ loft lie face_height blade_length : ℝ,
        (hoselPlacement ℝ Real.sin Real.cos Real.pi loft lie face_height
          blade_length).rotAxisDirection =
          (1 - (-blade_length / 2 + 8),
           0 - face_height * Real.sin (loft * Real.pi / 180),
           0 - face_height * Real.cos (loft * Real.pi / 180)))
    ∧ |(hoselPlacement ℝ Real.sin Real.cos Real.pi 56 64 49 74).translation.2.1
        - 40.6| < 0.05
    ∧ |(hoselPlacement ℝ Real.sin Real.cos Real.pi 56 64 49 74).translation.2.2
        - 27.4| < 0.05 := by
  refine ⟨fun loft lie fh bl => rfl, fun loft lie fh bl => rfl, ?_, ?_⟩
  · have hs := sin56_bounds
    show |49 * Real.sin (56 * Real.pi / 180) - 40.6| < 0.05
    rw [abs_lt]
    constructor <;> nlinarith [hs.1, hs.2]
  · have hc := cos56_bounds
    show |49 * Real.cos (56 * Real.pi / 180) - 27.4| < 0.05
    rw [abs_lt]
    constructor <;> nlinarith [hc.1, hc.2]

/-- C10: the generated blade geometry is independent of the configured
topline thickness: two blade configurations differing only in
`topline_thickness` generate identical geometry, whose cross-section uses
the fixed internal back offsets 3.0 at the topline and 7.0 at the sole. -/
theorem blade_ignores_topline_thickness (c : BladeConfig) (t u : ℚ) :
    generateBlade { c with topline_thickness := t } =
      generateBlade { c with topline_thickness := u }
    ∧ topline_offset = 3 ∧ sole_offset = 7 :=
  ⟨rfl, by norm_num [topline_offset], by norm_num [sole_offset]⟩

end WedgeDesigner

